import Mathlib

/-!
Verification development for the gattycord social-media monitor
(src/main.py). The Python program is shallowly embedded: network and
file effects are passed in explicitly as oracle data, stateful cache
mutation becomes explicit cache passing, and each checker returns its
boolean result together with the updated cache and the list of network
events it performed.
-/

set_option autoImplicit false

namespace Gattycord

/-! ## Cache store (`load_cache` / `save_cache` / `self.cache`)

The Python cache is a JSON object of string keys to string values,
modelled as an association list with first-match lookup and
replace-or-append assignment (Python dict semantics for the keys the
program uses). -/

abbrev Cache := List (String × String)

/-- Lookup `self.cache.get(key)`: first binding of the key, else `none`. -/
def cacheGet : Cache → String → Option String
  | [], _ => none
  | (k2, v) :: rest, k => if k2 == k then some v else cacheGet rest k

/-- Assignment `self.cache[key] = value`: replace the existing binding or append. -/
def cacheSet : Cache → String → String → Cache
  | [], k, v => [(k, v)]
  | (k2, v2) :: rest, k, v =>
      if k2 == k then (k, v) :: rest else (k2, v2) :: cacheSet rest k v

/-- Python truthiness of an optional string (`if not x:` is taken for
`none` and for the empty string, as with `os.getenv` results). -/
def truthy : Option String → Bool
  | none => false
  | some s => !(s == "")

/-! ## Discord payloads and network events -/

/-- A Discord rich-card embed as built by the program (dict literal at
src/main.py:140 and 355 and 239). -/
structure Embed where
  title : String
  url : String
  color : Nat
  image : Option String := none
  description : String
  fields : List (String × String × Bool) := []
  author : Option (String × String) := none
  deriving Repr, DecidableEq

/-- The JSON body POSTed to a webhook: `{content, embeds?}`. -/
structure Payload where
  content : String
  embeds : List Embed := []
  deriving Repr, DecidableEq

/-- A network side effect: an outbound GET (or API call) to a named
endpoint, or a webhook POST carrying its payload and whether the POST
succeeded (2xx). -/
inductive Ev where
  | get (url : String)
  | post (url : String) (payload : Payload) (ok : Bool)
  deriving Repr, DecidableEq

/-- Environment-sourced configuration (module level constants
`DISCORD_WEBHOOK_URL`, `DISCORD_LOG_WEBHOOK_URL`, `DISCORD_USER_ID`). -/
structure Config where
  discordWebhookUrl : Option String
  discordLogWebhookUrl : Option String
  discordUserId : Option String
  deriving Repr, DecidableEq

/-- True on a webhook POST event that succeeded. -/
def notifyOkEv : Ev → Bool
  | Ev.post _ _ ok => ok
  | Ev.get _ => false

/-- Whether some notifier call in the event list returned success. -/
def hadNotifySuccess (evs : List Ev) : Bool := evs.any notifyOkEv

/-! ## Notifier (`send_discord_webhook`, src/main.py:52)

`postOk` is the oracle for the outcome of `requests.post` +
`raise_for_status` (any exception there is caught and turned into
`False` by the function itself). -/

def send_discord_webhook (cfg : Config) (postOk : Bool) (content : String)
    (embed : Option Embed) (log : Bool) (mentionOnError : Bool) : Bool × List Ev :=
  let urlOpt := if log then cfg.discordLogWebhookUrl else cfg.discordWebhookUrl
  if truthy urlOpt = false then (false, [])
  else
    let content2 :=
      if mentionOnError && truthy cfg.discordUserId then
        "<@" ++ cfg.discordUserId.getD "" ++ "> " ++ content
      else content
    let payload : Payload :=
      { content := content2
        embeds := match embed with | some e => [e] | none => [] }
    (postOk, [Ev.post (urlOpt.getD "") payload postOk])

/-! ## HTTP fetcher (`_make_request`, src/main.py:73)

The tenacity decorator is
`retry(stop=stop_after_attempt(3), wait=wait_exponential(...),
retry=retry_if_exception_type((requests.RequestException, requests.Timeout)))`
and the body does `requests.get` followed by `raise_for_status()`.
Each attempt's outcome is drawn from an oracle `f : Nat → AttemptResult`.
`raise_for_status` raises `HTTPError` exactly for status codes in
[400, 600); `HTTPError`, `ConnectionError` and `Timeout` are all
subclasses of `requests.RequestException` in the Python class
hierarchy, while other exceptions are not. The model returns the
surfaced outcome (after the third failing attempt tenacity stops and
the failure propagates) together with the number of attempts made. -/

inductive AttemptResult where
  | response (status : Nat)
  | connError
  | timeoutErr
  | otherErr (msg : String)
  deriving Repr, DecidableEq

inductive Exn where
  | httpError (status : Nat)
  | connectionError
  | timeout
  | other (msg : String)
  deriving Repr, DecidableEq

/-- Outcome of one attempt of the body of `_make_request`:
`requests.get` then `response.raise_for_status()`. -/
def classifyAttempt : AttemptResult → Except Exn Nat
  | AttemptResult.response s =>
      if 400 ≤ s ∧ s < 600 then Except.error (Exn.httpError s) else Except.ok s
  | AttemptResult.connError => Except.error Exn.connectionError
  | AttemptResult.timeoutErr => Except.error Exn.timeout
  | AttemptResult.otherErr m => Except.error (Exn.other m)

/-- Whether the raised exception matches
`retry_if_exception_type((requests.RequestException, requests.Timeout))`:
`HTTPError`, `ConnectionError` and `Timeout` are `RequestException`s. -/
def retryableExn : Exn → Bool
  | Exn.httpError _ => true
  | Exn.connectionError => true
  | Exn.timeout => true
  | Exn.other _ => false

/-- `_make_request` under the tenacity policy: up to 3 attempts, a
non-matching exception re-raises immediately, and the failure of the
third attempt is surfaced. Returns (surfaced outcome, attempts made). -/
def make_request (f : Nat → AttemptResult) : Except Exn Nat × Nat :=
  match classifyAttempt (f 0) with
  | Except.ok s => (Except.ok s, 1)
  | Except.error e =>
    if retryableExn e = false then (Except.error e, 1)
    else
      match classifyAttempt (f 1) with
      | Except.ok s => (Except.ok s, 2)
      | Except.error e2 =>
        if retryableExn e2 = false then (Except.error e2, 2)
        else (classifyAttempt (f 2), 3)

/-! ## YouTube checker (`check_youtube` / `_check_youtube_impl`, src/main.py:80) -/

/-- One item of the `youtube.search().list` response. -/
structure YTSearchItem where
  videoId : String
  title : String
  publishedAt : String
  description : String
  deriving Repr, DecidableEq

/-- One item of the `youtube.videos().list` response. -/
structure YTVideo where
  title : String
  description : String
  thumbnail : String
  viewCount : Nat
  deriving Repr, DecidableEq

/-- Oracle data for one YouTube run: the API credential, whether
`googleapiclient.discovery.build` raises (it sits outside the inner
try at src/main.py:96), the two API responses (errors model raised
API exceptions), and the webhook POST outcome. -/
structure YTEnv where
  apiKey : Option String
  buildResult : Except String Unit
  searchResp : Except String (List YTSearchItem)
  detailResp : String → Except String (List YTVideo)
  postOk : Bool

def yt_search_call : String := "youtube.search.list"

def yt_videos_call : String := "youtube.videos.list"

/-- Insert comma thousands separators into a reversed digit list
(models Python format spec `:,`). -/
def group3 : List Char → List Char
  | a :: b :: c :: d :: rest => a :: b :: c :: ',' :: group3 (d :: rest)
  | l => l

/-- Python `f"{int(view_count):,}"` on a natural number. -/
def commaFormat (n : Nat) : String :=
  String.mk (group3 (toString n).data.reverse).reverse

/-- Truncation of the video description in the embed
(src/main.py:145): first 200 characters plus ellipsis when longer
than 200, unchanged otherwise. -/
def ytDescription (d : String) : String :=
  if d.length > 200 then d.take 200 ++ "..." else d

/-- The embed built for a new video (src/main.py:140). -/
def ytEmbed (videoId : String) (v : YTVideo) : Embed :=
  { title := v.title
    url := "https://youtu.be/" ++ videoId
    color := 16711680
    image := some v.thumbnail
    description := ytDescription v.description
    fields := [("Views", commaFormat v.viewCount, true)]
    author := none }

/-- The text announcement for a new video (src/main.py:149). -/
def ytContent (videoId title : String) : String :=
  "new video on youtube! \n\"" ++ title ++ "\"\nhttps://youtu.be/" ++ videoId

/-- `_check_youtube_impl` (src/main.py:88). The `Except` layer carries
exceptions that escape the function itself: only a failure of
`googleapiclient.discovery.build`, which sits outside the inner
try/except; API errors inside the try are caught at src/main.py:156
and become `False`. -/
def check_youtube_impl (cfg : Config) (env : YTEnv) (cache : Cache) :
    Except String (Bool × Cache × List Ev) :=
  if truthy env.apiKey = false then Except.ok (false, cache, [])
  else
    match env.buildResult with
    | Except.error e => Except.error e
    | Except.ok _ =>
      Except.ok <|
        match env.searchResp with
        | Except.error _ => (false, cache, [Ev.get yt_search_call])
        | Except.ok [] => (false, cache, [Ev.get yt_search_call])
        | Except.ok (item :: _) =>
          let videoId := item.videoId
          if cacheGet cache "youtube_last_video" == some videoId then
            (false, cache, [Ev.get yt_search_call])
          else
            match env.detailResp videoId with
            | Except.error _ =>
                (false, cache, [Ev.get yt_search_call, Ev.get yt_videos_call])
            | Except.ok [] =>
                (false, cache, [Ev.get yt_search_call, Ev.get yt_videos_call])
            | Except.ok (video :: _) =>
              let send := send_discord_webhook cfg env.postOk (ytContent videoId video.title)
                (some (ytEmbed videoId video)) false false
              if send.1 then
                (true, cacheSet cache "youtube_last_video" videoId,
                  Ev.get yt_search_call :: Ev.get yt_videos_call :: send.2)
              else
                (false, cache,
                  Ev.get yt_search_call :: Ev.get yt_videos_call :: send.2)

/-- `check_youtube` (src/main.py:80): any exception from the
implementation is caught, logged and converted to `False`. -/
def check_youtube (cfg : Config) (env : YTEnv) (cache : Cache) :
    Bool × Cache × List Ev :=
  match check_youtube_impl cfg env cache with
  | Except.ok r => r
  | Except.error _ => (false, cache, [])

/-! ## Instagram checker (src/main.py:162-380) -/

/-- A normalized Instagram post node (`post_data`): the fields the
program reads, with the same defaults as the `.get` calls. -/
structure IGPost where
  shortcode : String := ""
  isVideo : Bool := false
  displayUrl : Option String := none
  likeCount : Nat := 0
  captionEdges : List String := []
  takenAt : Option Nat := none
  deriving Repr, DecidableEq

/-- Caption extraction (src/main.py:347-350): first
`edge_media_to_caption` edge text, else the empty string. -/
def extractCaption (p : IGPost) : String :=
  match p.captionEdges with
  | [] => ""
  | t :: _ => t

/-- The embed description (src/main.py:359):
`(caption[:300] + "...") if len(caption) > 300 else (caption or "New Instagram post")`. -/
def igCaptionRender (caption : String) : String :=
  if caption.length > 300 then caption.take 300 ++ "..."
  else if caption == "" then "New Instagram post" else caption

/-- Python's `str.title()` on the single-word labels used here. -/
def titleWord (s : String) : String :=
  match s.data with
  | [] => ""
  | c :: rest => String.mk (c.toUpper :: rest)

/-- The embed built by `_process_instagram_post` (src/main.py:355). -/
def igEmbed (p : IGPost) : Embed :=
  let postType := if p.isVideo then "reel" else "post"
  { title := "Instagram " ++ titleWord postType
    url := "https://www.instagram.com/p/" ++ p.shortcode ++ "/"
    color := 14315734
    image := p.displayUrl
    description := igCaptionRender (extractCaption p)
    fields := []
    author := some ("gatlin", "https://www.instagram.com/gatlin/") }

/-- The text announcement for a new Instagram item (src/main.py:369). -/
def igContent (p : IGPost) : String :=
  "new " ++ (if p.isVideo then "reel" else "post") ++ " on instagram!\n" ++
    "https://www.instagram.com/p/" ++ p.shortcode ++ "/"

/-- `_process_instagram_post` (src/main.py:316): missing shortcode or
cache hit mean `False`; otherwise build the card, notify, and update
the cache only on notifier success. -/
def process_instagram_post (cfg : Config) (postOk : Bool) (cache : Cache)
    (p : IGPost) : Bool × Cache × List Ev :=
  if p.shortcode == "" then (false, cache, [])
  else if cacheGet cache "instagram_last_post" == some p.shortcode then
    (false, cache, [])
  else
    let send := send_discord_webhook cfg postOk (igContent p) (some (igEmbed p)) false false
    if send.1 then
      (true, cacheSet cache "instagram_last_post" p.shortcode, send.2)
    else (false, cache, send.2)

/-- Wrap a definite boolean outcome of the shared post pipeline as the
`Optional[bool]` the strategy functions return. -/
def liftResult (x : Bool × Cache × List Ev) : Option Bool × Cache × List Ev :=
  (some x.1, x.2.1, x.2.2)

/-- The parsed body of the web_profile_info JSON endpoint:
whether `data.user` is non-empty, and the timeline edges. -/
structure IGJsonData where
  userPresent : Bool
  posts : List IGPost
  deriving Repr, DecidableEq

/-- `_process_instagram_json` (src/main.py:266). -/
def process_instagram_json (cfg : Config) (postOk : Bool) (cache : Cache)
    (d : IGJsonData) : Option Bool × Cache × List Ev :=
  if d.userPresent = false then (none, cache, [])
  else
    match d.posts with
    | [] => (none, cache, [])
    | p :: _ => liftResult (process_instagram_post cfg postOk cache p)

/-- What the profile HTML page yields to `_process_instagram_html`
(src/main.py:284): the first post node successfully parsed from an
embedded `window._sharedData` script block, and the first
`/p/<shortcode>/` hyperlink. -/
structure HtmlData where
  scriptPost : Option IGPost := none
  linkShortcode : Option String := none
  deriving Repr, DecidableEq

/-- `_process_instagram_html` (src/main.py:284): script-marker
extraction first, raw hyperlink fallback second, else inconclusive. -/
def process_instagram_html (cfg : Config) (postOk : Bool) (cache : Cache)
    (h : HtmlData) : Option Bool × Cache × List Ev :=
  match h.scriptPost with
  | some p => liftResult (process_instagram_post cfg postOk cache p)
  | none =>
    match h.linkShortcode with
    | some sc =>
        liftResult (process_instagram_post cfg postOk cache { shortcode := sc })
    | none => (none, cache, [])

def ig_json_url : String :=
  "https://www.instagram.com/api/v1/users/web_profile_info/?username=gatlin"

def ig_html_url : String := "https://www.instagram.com/gatlin/"

def picuki_url : String := "https://www.picuki.com/profile/gatlin"

/-- Oracle data for `_check_instagram_web`: the JSON endpoint fetch
(an error models `_make_request` or `response.json()` raising, caught
by the inner except at src/main.py:199) and the HTML page fetch (an
error models `_make_request` raising, caught by the outer except). -/
structure IGWebEnv where
  jsonFetch : Except String (Nat × IGJsonData)
  htmlFetch : Except String HtmlData

/-- The HTML fallback step of `_check_instagram_web`
(src/main.py:202-206), entered when the JSON attempt raised or did
not return status 200. -/
def igWebHtmlStep (cfg : Config) (postOk : Bool) (cache : Cache)
    (env : IGWebEnv) : Option Bool × Cache × List Ev :=
  match env.htmlFetch with
  | Except.error _ => (none, cache, [Ev.get ig_json_url, Ev.get ig_html_url])
  | Except.ok h =>
    let r := process_instagram_html cfg postOk cache h
    (r.1, r.2.1, Ev.get ig_json_url :: Ev.get ig_html_url :: r.2.2)

/-- `_check_instagram_web` (src/main.py:178): JSON endpoint first; on
a 200 response its parsed body is processed and that result is
returned (even when inconclusive); on a raised request/parse error or
a non-200 status, fall through to the HTML page. -/
def check_instagram_web (cfg : Config) (postOk : Bool) (cache : Cache)
    (env : IGWebEnv) : Option Bool × Cache × List Ev :=
  match env.jsonFetch with
  | Except.ok (status, d) =>
    if status == 200 then
      let r := process_instagram_json cfg postOk cache d
      (r.1, r.2.1, Ev.get ig_json_url :: r.2.2)
    else igWebHtmlStep cfg postOk cache env
  | Except.error _ => igWebHtmlStep cfg postOk cache env

/-- What the picuki mirror page yields (src/main.py:224-237): the
first `/media/<digits>` link's id and the first `.jpg` image source. -/
structure RssPage where
  mediaId : Option String := none
  imageUrl : Option String := none
  deriving Repr, DecidableEq

structure RssEnv where
  fetch : Except String RssPage

/-- The embed built inline by `_check_instagram_rss` (src/main.py:239). -/
def rssEmbed (postId : String) (img : Option String) : Embed :=
  { title := "Instagram Post"
    url := "https://www.instagram.com/p/" ++ postId ++ "/"
    color := 14315734
    image := img
    description := "New Instagram post from gatlin"
    fields := []
    author := some ("gatlin", "https://www.instagram.com/gatlin/") }

/-- The text announcement built inline by `_check_instagram_rss`
(src/main.py:253). -/
def rssContent (postId : String) : String :=
  "new post on instagram!\nhttps://www.instagram.com/p/" ++ postId ++ "/"

/-- `_check_instagram_rss` (src/main.py:212): its own inline
compare-cache → build-card → notify → update-cache sequence; a failed
notification falls through to `return None` (inconclusive). -/
def check_instagram_rss (cfg : Config) (postOk : Bool) (cache : Cache)
    (env : RssEnv) : Option Bool × Cache × List Ev :=
  match env.fetch with
  | Except.error _ => (none, cache, [Ev.get picuki_url])
  | Except.ok page =>
    match page.mediaId with
    | none => (none, cache, [Ev.get picuki_url])
    | some postId =>
      if cacheGet cache "instagram_last_post" == some postId then
        (some false, cache, [Ev.get picuki_url])
      else
        let send := send_discord_webhook cfg postOk (rssContent postId)
          (some (rssEmbed postId page.imageUrl)) false false
        if send.1 then
          (some true, cacheSet cache "instagram_last_post" postId,
            Ev.get picuki_url :: send.2)
        else (none, cache, Ev.get picuki_url :: send.2)

/-- `check_instagram` (src/main.py:162): try the strategies in order,
return the first non-`None` result; if all are inconclusive, `False`. -/
def check_instagram (cfg : Config) (postOk : Bool) (cache : Cache)
    (web : IGWebEnv) (rss : RssEnv) : Bool × Cache × List Ev :=
  let r1 := check_instagram_web cfg postOk cache web
  match r1.1 with
  | some b => (b, r1.2.1, r1.2.2)
  | none =>
    let r2 := check_instagram_rss cfg postOk r1.2.1 rss
    match r2.1 with
    | some b => (b, r2.2.1, r1.2.2 ++ r2.2.2)
    | none => (false, r2.2.1, r1.2.2 ++ r2.2.2)

/-! ## Orchestrator (`run_all_checks`, src/main.py:382) -/

def statusText (b : Bool) : String :=
  if b then "✓ success" else "- no new content"

/-- The end-of-run summary text (src/main.py:410-423). The errors
section is omitted because the modelled checkers are total, as in the
source where both `check` entry points catch every exception. -/
def runSummary (yt ig : Bool) (isGithub : Bool) (userId : Option String) : String :=
  let runType := if isGithub then "automatic (github actions)" else "manual (local)"
  let baseLines :=
    ["**gattycord monitor run summary**", "run type: " ++ runType, "",
     "results:", "> youtube: " ++ statusText yt, "> instagram: " ++ statusText ig]
  let allLines :=
    if truthy userId then baseLines ++ ["<@" ++ userId.getD "" ++ ">"] else baseLines
  String.intercalate "\n" allLines

/-- Outcome of one orchestrator pass: per-source results, the cache
contents written by `save_cache`, the summary notification call's
result, and all network events. -/
structure RunOutcome where
  ytResult : Bool
  igResult : Bool
  savedCache : Option Cache
  summary : Bool × List Ev
  events : List Ev
  deriving Repr

/-- `run_all_checks` (src/main.py:382): each checker in order (the
per-source try/except never fires because both checkers contain their
exceptions), then `save_cache`, then the summary webhook to the log
channel. -/
def run_all_checks (cfg : Config) (ytEnv : YTEnv) (igPostOk : Bool)
    (sumPostOk : Bool) (isGithub : Bool) (web : IGWebEnv) (rss : RssEnv)
    (cache : Cache) : RunOutcome :=
  let y := check_youtube cfg ytEnv cache
  let i := check_instagram cfg igPostOk y.2.1 web rss
  let s := send_discord_webhook cfg sumPostOk
    (runSummary y.1 i.1 isGithub cfg.discordUserId) none true false
  { ytResult := y.1
    igResult := i.1
    savedCache := some i.2.1
    summary := s
    events := y.2.2 ++ i.2.2 ++ s.2 }

/-! ## Cache file and program entry (`load_cache`, `__main__`) -/

/-- The backing cache file, classified by what `open` + `json.load`
do with it: absent (`FileNotFoundError`), present but not valid JSON
(`json.JSONDecodeError`), or a valid JSON object of strings. -/
inductive CacheFile where
  | absent
  | invalid (raw : String)
  | valid (c : Cache)
  deriving Repr, DecidableEq

/-- `load_cache` (src/main.py:41): only `FileNotFoundError` is caught
(returning the empty mapping); a JSON decode error propagates. -/
def load_cache : CacheFile → Except String Cache
  | CacheFile.absent => Except.ok []
  | CacheFile.invalid raw => Except.error ("JSONDecodeError: " ++ raw)
  | CacheFile.valid c => Except.ok c

/-- The `__main__` block: construct the monitor (whose constructor
runs `load_cache`) and run all checks; a load failure propagates
before any checker runs. -/
def monitorMain (f : CacheFile) (cfg : Config) (ytEnv : YTEnv)
    (igPostOk sumPostOk isGithub : Bool) (web : IGWebEnv) (rss : RssEnv) :
    Except String RunOutcome := do
  let cache ← load_cache f
  pure (run_all_checks cfg ytEnv igPostOk sumPostOk isGithub web rss cache)

/-! ## Concrete sample inputs (used to witness the theorems below) -/

def cfgW : Config :=
  { discordWebhookUrl := some "https://hook.example/a"
    discordLogWebhookUrl := some "https://hook.example/log"
    discordUserId := some "42" }

def cfgNone : Config :=
  { discordWebhookUrl := none, discordLogWebhookUrl := none, discordUserId := none }

def itemAbc : YTSearchItem :=
  { videoId := "abc123", title := "Hello", publishedAt := "2024-05-01", description := "d" }

def itemXyz : YTSearchItem :=
  { videoId := "xyz789", title := "Hello", publishedAt := "2024-05-02", description := "d" }

def videoXyz : YTVideo :=
  { title := "Hello", description := "d", thumbnail := "https://img.example/t.jpg"
    viewCount := 1234 }

def cacheAbc : Cache :=
  [("youtube_last_video", "abc123"), ("instagram_last_post", "p1"), ("other_key", "keep")]

def envSame : YTEnv :=
  { apiKey := some "key", buildResult := Except.ok (), searchResp := Except.ok [itemAbc]
    detailResp := fun _ => Except.ok [], postOk := true }

def envNew : YTEnv :=
  { apiKey := some "key", buildResult := Except.ok (), searchResp := Except.ok [itemXyz]
    detailResp := fun _ => Except.ok [videoXyz], postOk := true }

def envNoKey : YTEnv :=
  { apiKey := none, buildResult := Except.ok (), searchResp := Except.ok []
    detailResp := fun _ => Except.ok [], postOk := true }

def envBoom : YTEnv :=
  { apiKey := some "key", buildResult := Except.error "boom", searchResp := Except.ok []
    detailResp := fun _ => Except.ok [], postOk := true }

def postP1 : IGPost := { shortcode := "p1" }

def postNew : IGPost := { shortcode := "zz9" }

def hScript : HtmlData := { scriptPost := some postNew }

def hLink : HtmlData := { linkShortcode := some "zz9" }

def dW : IGJsonData := { userPresent := true, posts := [postNew] }

def webErr : IGWebEnv := ⟨Except.error "json down", Except.error "html down"⟩

def webHtml : IGWebEnv := ⟨Except.error "json down", Except.ok hScript⟩

def rssErr : RssEnv := ⟨Except.error "picuki down"⟩

def rssPage1 : RssPage :=
  { mediaId := some "3141", imageUrl := some "https://pic.example/x.jpg" }

def rssOk : RssEnv := ⟨Except.ok rssPage1⟩

def attempts404 : Nat → AttemptResult := fun _ => AttemptResult.response 404

def attemptsOther : Nat → AttemptResult := fun _ => AttemptResult.otherErr "value error"

def attemptsConnThenOk : Nat → AttemptResult :=
  fun i => if i == 0 then AttemptResult.connError else AttemptResult.response 200

def longDesc : String := String.mk (List.replicate 201 'a')

def longCap : String := String.mk (List.replicate 301 'b')

def vLong : YTVideo :=
  { title := "T", description := longDesc, thumbnail := "th", viewCount := 5 }

def vShort : YTVideo :=
  { title := "T", description := "short", thumbnail := "th", viewCount := 5 }

def postLongCap : IGPost := { shortcode := "s1", captionEdges := [longCap] }

def postShortCap : IGPost := { shortcode := "s1", captionEdges := ["hi"] }

def postNoCap : IGPost := { shortcode := "s1" }

def cacheFinalW : Cache :=
  [("youtube_last_video", "xyz789"), ("instagram_last_post", "p1"), ("other_key", "keep")]

/-- Specification pattern shared by the Instagram strategy functions:
either no successful notification happened and the cache entry is
untouched and the strategy did not announce, or the strategy announced
some post id, set the cache entry to it, and its trace holds one
successful POST whose card links that id. -/
abbrev IGStrategySpec (cache : Cache) (out : Option Bool × Cache × List Ev) : Prop :=
  (out.1 ≠ some true ∧ out.2.1 = cache ∧ hadNotifySuccess out.2.2 = false) ∨
  (out.1 = some true ∧ ∃ pid u pay,
    out.2.1 = cacheSet cache "instagram_last_post" pid ∧
    hadNotifySuccess out.2.2 = true ∧
    Ev.post u pay true ∈ out.2.2 ∧
    ∃ em, pay.embeds = [em] ∧ em.url = "https://www.instagram.com/p/" ++ pid ++ "/")

/-! ## Helper lemmas -/

theorem hadNotify_nil : hadNotifySuccess [] = false := rfl

theorem hadNotify_cons_get (u : String) (l : List Ev) :
    hadNotifySuccess (Ev.get u :: l) = hadNotifySuccess l := by
  simp [hadNotifySuccess, notifyOkEv]

theorem hadNotify_append (l1 l2 : List Ev) :
    hadNotifySuccess (l1 ++ l2) = (hadNotifySuccess l1 || hadNotifySuccess l2) := by
  simp [hadNotifySuccess]

/-- Setting one key leaves lookups of every other key unchanged. -/
theorem cacheGet_cacheSet_ne (c : Cache) (k v q : String) (hne : k ≠ q) :
    cacheGet (cacheSet c k v) q = cacheGet c q := by
  induction c with
  | nil => simp [cacheSet, cacheGet, hne]
  | cons hd tl ih =>
    obtain ⟨a, b⟩ := hd
    by_cases hak : a = k
    · subst hak
      simp [cacheSet, cacheGet, hne]
    · simp only [cacheSet, cacheGet]
      have : (a == k) = false := by simp [hak]
      rw [this]
      simp only [Bool.false_eq_true, if_false, cacheGet]
      by_cases haq : a == q <;> simp [haq, ih]

/-- The boolean the notifier returns: `false` when the resolved URL is
unset, otherwise the POST outcome. -/
theorem send_fst (cfg : Config) (postOk : Bool) (content : String)
    (embed : Option Embed) (log m : Bool) :
    (send_discord_webhook cfg postOk content embed log m).1
      = (truthy (if log then cfg.discordLogWebhookUrl else cfg.discordWebhookUrl)
          && postOk) := by
  by_cases h : truthy (if log then cfg.discordLogWebhookUrl else cfg.discordWebhookUrl)
  · simp [send_discord_webhook, h]
  · simp [send_discord_webhook, Bool.not_eq_true] at h ⊢
    simp [h]

/-- A notifier call's event list reports success exactly when the
call returned success. -/
theorem send_hadNotify (cfg : Config) (postOk : Bool) (content : String)
    (embed : Option Embed) (log m : Bool) :
    hadNotifySuccess (send_discord_webhook cfg postOk content embed log m).2
      = (send_discord_webhook cfg postOk content embed log m).1 := by
  by_cases h : truthy (if log then cfg.discordLogWebhookUrl else cfg.discordWebhookUrl)
  · simp [send_discord_webhook, h, hadNotifySuccess, notifyOkEv]
  · simp [Bool.not_eq_true] at h
    simp [send_discord_webhook, h, hadNotifySuccess]

/-- The notifier never performs a GET. -/
theorem send_no_get (cfg : Config) (postOk : Bool) (content : String)
    (embed : Option Embed) (log m : Bool) (u : String) :
    Ev.get u ∉ (send_discord_webhook cfg postOk content embed log m).2 := by
  by_cases h : truthy (if log then cfg.discordLogWebhookUrl else cfg.discordWebhookUrl)
  · simp [send_discord_webhook, h]
  · simp [Bool.not_eq_true] at h
    simp [send_discord_webhook, h]

/-- On success the notifier's trace is a single successful POST whose
payload carries the given embed. -/
theorem send_success_shape (cfg : Config) (postOk : Bool) (content : String)
    (e : Embed) (log m : Bool)
    (h : (send_discord_webhook cfg postOk content (some e) log m).1 = true) :
    ∃ u pay, (send_discord_webhook cfg postOk content (some e) log m).2
        = [Ev.post u pay true] ∧ pay.embeds = [e] := by
  by_cases hu : truthy (if log then cfg.discordLogWebhookUrl else cfg.discordWebhookUrl)
  · have hp : postOk = true := by
      rw [send_fst] at h
      exact (Bool.and_eq_true _ _).mp h |>.2
    subst hp
    refine ⟨(if log then cfg.discordLogWebhookUrl else cfg.discordWebhookUrl).getD "",
      { content := if m && truthy cfg.discordUserId then
          "<@" ++ cfg.discordUserId.getD "" ++ "> " ++ content else content
        embeds := [e] }, ?_, rfl⟩
    simp [send_discord_webhook, hu]
  · exfalso
    rw [send_fst] at h
    simp [Bool.not_eq_true] at hu
    simp [hu] at h

/-- Run dichotomy for the shared Instagram pipeline: the cache entry is
updated exactly when the notifier call returned success, and then it is
set to the processed post's shortcode. -/
theorem ppost_spec (cfg : Config) (postOk : Bool) (cache : Cache) (p : IGPost) :
    ((process_instagram_post cfg postOk cache p).1 = false ∧
     (process_instagram_post cfg postOk cache p).2.1 = cache ∧
     hadNotifySuccess (process_instagram_post cfg postOk cache p).2.2 = false) ∨
    ((process_instagram_post cfg postOk cache p).1 = true ∧
     (process_instagram_post cfg postOk cache p).2.1
        = cacheSet cache "instagram_last_post" p.shortcode ∧
     hadNotifySuccess (process_instagram_post cfg postOk cache p).2.2 = true ∧
     ∃ u pay, (process_instagram_post cfg postOk cache p).2.2 = [Ev.post u pay true] ∧
       pay.embeds = [igEmbed p]) := by
  by_cases h1 : p.shortcode == ""
  · left; simp [process_instagram_post, h1, hadNotifySuccess]
  · by_cases h2 : cacheGet cache "instagram_last_post" == some p.shortcode
    · left; simp [process_instagram_post, h1, h2, hadNotifySuccess]
    · by_cases h3 : (send_discord_webhook cfg postOk (igContent p)
          (some (igEmbed p)) false false).1 = true
      · right
        obtain ⟨u, pay, hevs, hemb⟩ :=
          send_success_shape cfg postOk (igContent p) (igEmbed p) false false h3
        refine ⟨?_, ?_, ?_, u, pay, ?_, hemb⟩
        · simp [process_instagram_post, h1, h2, h3]
        · simp [process_instagram_post, h1, h2, h3]
        · simp [process_instagram_post, h1, h2, h3, send_hadNotify]
        · simp [process_instagram_post, h1, h2, h3, hevs]
      · have h3f : (send_discord_webhook cfg postOk (igContent p)
            (some (igEmbed p)) false false).1 = false := by simpa using h3
        left
        refine ⟨?_, ?_, ?_⟩
        · simp [process_instagram_post, h1, h2, h3f]
        · simp [process_instagram_post, h1, h2, h3f]
        · simp [process_instagram_post, h1, h2, h3f, send_hadNotify]

/-- The shared pipeline performs no GET. -/
theorem ppost_no_get (cfg : Config) (postOk : Bool) (cache : Cache) (p : IGPost)
    (u : String) : Ev.get u ∉ (process_instagram_post cfg postOk cache p).2.2 := by
  by_cases h1 : p.shortcode == ""
  · simp [process_instagram_post, h1]
  · by_cases h2 : cacheGet cache "instagram_last_post" == some p.shortcode
    · simp [process_instagram_post, h1, h2]
    · by_cases h3 : (send_discord_webhook cfg postOk (igContent p)
          (some (igEmbed p)) false false).1 = true
      · simpa [process_instagram_post, h1, h2, h3] using
          send_no_get cfg postOk (igContent p) (some (igEmbed p)) false false u
      · have h3f : (send_discord_webhook cfg postOk (igContent p)
            (some (igEmbed p)) false false).1 = false := by simpa using h3
        simpa [process_instagram_post, h1, h2, h3f] using
          send_no_get cfg postOk (igContent p) (some (igEmbed p)) false false u

theorem liftResult_spec (cfg : Config) (postOk : Bool) (cache : Cache) (p : IGPost) :
    IGStrategySpec cache (liftResult (process_instagram_post cfg postOk cache p)) := by
  rcases ppost_spec cfg postOk cache p with ⟨hr, hc, hn⟩ | ⟨hr, hc, hn, u, pay, hevs, hemb⟩
  · left
    refine ⟨?_, ?_, ?_⟩
    · simp [liftResult, hr]
    · simp [liftResult, hc]
    · simp [liftResult, hn]
  · right
    refine ⟨by simp [liftResult, hr], p.shortcode, u, pay,
      by simp [liftResult, hc], by simp [liftResult, hn], ?_, igEmbed p, hemb, ?_⟩
    · simp [liftResult, hevs]
    · simp [igEmbed]

theorem IGStrategySpec_cons_get (cache : Cache) (u : String)
    (out : Option Bool × Cache × List Ev) (h : IGStrategySpec cache out) :
    IGStrategySpec cache (out.1, out.2.1, Ev.get u :: out.2.2) := by
  rcases h with ⟨h1, h2, h3⟩ | ⟨h1, pid, u2, pay, h2, h3, h4, em, h5, h6⟩
  · left
    exact ⟨h1, h2, by simpa [hadNotify_cons_get] using h3⟩
  · right
    exact ⟨h1, pid, u2, pay, h2, by simpa [hadNotify_cons_get] using h3,
      List.mem_cons_of_mem _ h4, em, h5, h6⟩

theorem json_spec (cfg : Config) (postOk : Bool) (cache : Cache) (d : IGJsonData) :
    IGStrategySpec cache (process_instagram_json cfg postOk cache d) := by
  by_cases hu : d.userPresent = false
  · left; simp [process_instagram_json, hu, hadNotify_nil]
  · have hu2 : d.userPresent = true := by revert hu; cases d.userPresent <;> simp
    cases hp : d.posts with
    | nil => left; simp [process_instagram_json, hu2, hp, hadNotify_nil]
    | cons p ps =>
      simpa [process_instagram_json, hu2, hp] using liftResult_spec cfg postOk cache p

theorem html_spec (cfg : Config) (postOk : Bool) (cache : Cache) (h : HtmlData) :
    IGStrategySpec cache (process_instagram_html cfg postOk cache h) := by
  cases hsp : h.scriptPost with
  | some p =>
    simpa [process_instagram_html, hsp] using liftResult_spec cfg postOk cache p
  | none =>
    cases hl : h.linkShortcode with
    | some sc =>
      simpa [process_instagram_html, hsp, hl] using
        liftResult_spec cfg postOk cache { shortcode := sc }
    | none => left; simp [process_instagram_html, hsp, hl, hadNotify_nil]

theorem igWebHtmlStep_spec (cfg : Config) (postOk : Bool) (cache : Cache)
    (env : IGWebEnv) : IGStrategySpec cache (igWebHtmlStep cfg postOk cache env) := by
  cases hf : env.htmlFetch with
  | error e => left; simp [igWebHtmlStep, hf, hadNotify_nil, hadNotify_cons_get]
  | ok hdata =>
    have h1 := html_spec cfg postOk cache hdata
    have h2 := IGStrategySpec_cons_get cache ig_html_url _ h1
    have h3 := IGStrategySpec_cons_get cache ig_json_url _ h2
    simpa [igWebHtmlStep, hf] using h3

theorem web_spec (cfg : Config) (postOk : Bool) (cache : Cache) (env : IGWebEnv) :
    IGStrategySpec cache (check_instagram_web cfg postOk cache env) := by
  cases hj : env.jsonFetch with
  | error e =>
    simpa [check_instagram_web, hj] using igWebHtmlStep_spec cfg postOk cache env
  | ok sd =>
    obtain ⟨status, d⟩ := sd
    by_cases hs : status == 200
    · have h1 := json_spec cfg postOk cache d
      have h2 := IGStrategySpec_cons_get cache ig_json_url _ h1
      simpa [check_instagram_web, hj, hs] using h2
    · simpa [check_instagram_web, hj, hs] using igWebHtmlStep_spec cfg postOk cache env

theorem rss_spec (cfg : Config) (postOk : Bool) (cache : Cache) (env : RssEnv) :
    IGStrategySpec cache (check_instagram_rss cfg postOk cache env) := by
  cases hf : env.fetch with
  | error e => left; simp [check_instagram_rss, hf, hadNotify_nil, hadNotify_cons_get]
  | ok page =>
    cases hm : page.mediaId with
    | none => left; simp [check_instagram_rss, hf, hm, hadNotify_nil, hadNotify_cons_get]
    | some pid =>
      by_cases hc : cacheGet cache "instagram_last_post" == some pid
      · left
        simp [check_instagram_rss, hf, hm, hc, hadNotify_nil, hadNotify_cons_get]
      · by_cases h3 : (send_discord_webhook cfg postOk (rssContent pid)
            (some (rssEmbed pid page.imageUrl)) false false).1 = true
        · right
          obtain ⟨u, pay, hevs, hemb⟩ := send_success_shape cfg postOk (rssContent pid)
            (rssEmbed pid page.imageUrl) false false h3
          refine ⟨?_, pid, u, pay, ?_, ?_, ?_, rssEmbed pid page.imageUrl, hemb, ?_⟩
          · simp [check_instagram_rss, hf, hm, hc, h3]
          · simp [check_instagram_rss, hf, hm, hc, h3]
          · simp [check_instagram_rss, hf, hm, hc, h3, hevs, hadNotify_cons_get,
              hadNotifySuccess, notifyOkEv]
          · simp [check_instagram_rss, hf, hm, hc, h3, hevs]
          · simp [rssEmbed]
        · have h3f : (send_discord_webhook cfg postOk (rssContent pid)
              (some (rssEmbed pid page.imageUrl)) false false).1 = false := by simpa using h3
          left
          refine ⟨?_, ?_, ?_⟩
          · simp [check_instagram_rss, hf, hm, hc, h3f]
          · simp [check_instagram_rss, hf, hm, hc, h3f]
          · simp [check_instagram_rss, hf, hm, hc, h3f, hadNotify_cons_get, send_hadNotify]

/-- Run dichotomy for the whole Instagram checker: its cache entry is
updated exactly when a notifier call returned success within the run,
and then it holds the announced post id. -/
theorem ig_spec (cfg : Config) (postOk : Bool) (cache : Cache) (web : IGWebEnv)
    (rss : RssEnv) :
    (hadNotifySuccess (check_instagram cfg postOk cache web rss).2.2 = false ∧
     (check_instagram cfg postOk cache web rss).2.1 = cache) ∨
    (hadNotifySuccess (check_instagram cfg postOk cache web rss).2.2 = true ∧
     (check_instagram cfg postOk cache web rss).1 = true ∧
     ∃ pid u pay,
       (check_instagram cfg postOk cache web rss).2.1
          = cacheSet cache "instagram_last_post" pid ∧
       Ev.post u pay true ∈ (check_instagram cfg postOk cache web rss).2.2 ∧
       ∃ em, pay.embeds = [em] ∧
         em.url = "https://www.instagram.com/p/" ++ pid ++ "/") := by
  rcases web_spec cfg postOk cache web with ⟨w1, w2, w3⟩ |
    ⟨w1, pid, u, pay, w2, w3, w4, em, w5, w6⟩
  · cases hw : (check_instagram_web cfg postOk cache web).1 with
    | some b =>
      cases b with
      | true => exact absurd hw w1
      | false =>
        left
        constructor
        · simpa [check_instagram, hw] using w3
        · simpa [check_instagram, hw] using w2
    | none =>
      rcases rss_spec cfg postOk ((check_instagram_web cfg postOk cache web).2.1) rss with
        ⟨s1, s2, s3⟩ | ⟨s1, pid, u, pay, s2, s3, s4, em, s5, s6⟩
      · rw [w2] at s1 s2 s3
        left
        cases hr : (check_instagram_rss cfg postOk cache rss).1 with
        | some b =>
          cases b with
          | true => exact absurd hr s1
          | false =>
            constructor
            · simp [check_instagram, hw, w2, hr, hadNotify_append, w3, s3]
            · simp [check_instagram, hw, w2, hr, s2]
        | none =>
          constructor
          · simp [check_instagram, hw, w2, hr, hadNotify_append, w3, s3]
          · simp [check_instagram, hw, w2, hr, s2]
      · rw [w2] at s1 s2 s3 s4
        right
        refine ⟨?_, ?_, pid, u, pay, ?_, ?_, em, s5, s6⟩
        · simp [check_instagram, hw, w2, s1, hadNotify_append, s3]
        · simp [check_instagram, hw, w2, s1]
        · simp [check_instagram, hw, w2, s1, s2]
        · simp only [check_instagram, hw, w2, s1]
          exact List.mem_append_right _ s4
  · right
    refine ⟨?_, ?_, pid, u, pay, ?_, ?_, em, w5, w6⟩
    · simpa [check_instagram, w1] using w3
    · simp [check_instagram, w1]
    · simpa [check_instagram, w1] using w2
    · simpa [check_instagram, w1] using w4

/-- Run dichotomy for the YouTube checker: its cache entry is updated
exactly when the notifier call returned success, and then it is set to
the newest fetched video id. -/
theorem yt_spec (cfg : Config) (env : YTEnv) (cache : Cache) :
    (hadNotifySuccess (check_youtube cfg env cache).2.2 = false ∧
     (check_youtube cfg env cache).2.1 = cache) ∨
    (hadNotifySuccess (check_youtube cfg env cache).2.2 = true ∧
     (check_youtube cfg env cache).1 = true ∧
     ∃ item rest, env.searchResp = Except.ok (item :: rest) ∧
       (check_youtube cfg env cache).2.1
          = cacheSet cache "youtube_last_video" item.videoId) := by
  by_cases hk : truthy env.apiKey = false
  · left; simp [check_youtube, check_youtube_impl, hk, hadNotify_nil]
  · have hk2 : truthy env.apiKey = true := by revert hk; cases truthy env.apiKey <;> simp
    cases hb : env.buildResult with
    | error e => left; simp [check_youtube, check_youtube_impl, hk2, hb, hadNotify_nil]
    | ok uv =>
      cases hsr : env.searchResp with
      | error e =>
        left
        simp [check_youtube, check_youtube_impl, hk2, hb, hsr, hadNotify_nil,
          hadNotify_cons_get]
      | ok items =>
        cases items with
        | nil =>
          left
          simp [check_youtube, check_youtube_impl, hk2, hb, hsr, hadNotify_nil,
            hadNotify_cons_get]
        | cons item rest =>
          by_cases hc : cacheGet cache "youtube_last_video" == some item.videoId
          · left
            simp [check_youtube, check_youtube_impl, hk2, hb, hsr, hc, hadNotify_nil,
              hadNotify_cons_get]
          · cases hd : env.detailResp item.videoId with
            | error e =>
              left
              simp [check_youtube, check_youtube_impl, hk2, hb, hsr, hc, hd,
                hadNotify_nil, hadNotify_cons_get]
            | ok vids =>
              cases vids with
              | nil =>
                left
                simp [check_youtube, check_youtube_impl, hk2, hb, hsr, hc, hd,
                  hadNotify_nil, hadNotify_cons_get]
              | cons video vs =>
                by_cases h3 : (send_discord_webhook cfg env.postOk
                    (ytContent item.videoId video.title)
                    (some (ytEmbed item.videoId video)) false false).1 = true
                · right
                  refine ⟨?_, ?_, item, rest, rfl, ?_⟩
                  · simp [check_youtube, check_youtube_impl, hk2, hb, hsr, hc, hd, h3,
                      hadNotify_cons_get, send_hadNotify]
                  · simp [check_youtube, check_youtube_impl, hk2, hb, hsr, hc, hd, h3]
                  · simp [check_youtube, check_youtube_impl, hk2, hb, hsr, hc, hd, h3]
                · have h3f : (send_discord_webhook cfg env.postOk
                      (ytContent item.videoId video.title)
                      (some (ytEmbed item.videoId video)) false false).1 = false := by
                    simpa using h3
                  left
                  constructor
                  · simp [check_youtube, check_youtube_impl, hk2, hb, hsr, hc, hd, h3f,
                      hadNotify_cons_get, send_hadNotify]
                  · simp [check_youtube, check_youtube_impl, hk2, hb, hsr, hc, hd, h3f]

/-! ## Claims -/

/-- C1: for every source checker and every run, the checker's cache
entry is updated if and only if its notifier call returned success in
that same run: a failed or skipped notification leaves the cache at
its prior value, and a successful notification is followed by the
entry being set to the newly announced item's identifier (the newest
fetched video id, resp. the post id linked by the successfully POSTed
card). -/
theorem claim1_cache_update_iff_notifier_success
    (cfg : Config) (env : YTEnv) (cache : Cache) (igPostOk : Bool)
    (web : IGWebEnv) (rss : RssEnv) :
    ((hadNotifySuccess (check_youtube cfg env cache).2.2 = false ∧
      (check_youtube cfg env cache).2.1 = cache) ∨
     (hadNotifySuccess (check_youtube cfg env cache).2.2 = true ∧
      (check_youtube cfg env cache).1 = true ∧
      ∃ item rest, env.searchResp = Except.ok (item :: rest) ∧
        (check_youtube cfg env cache).2.1
          = cacheSet cache "youtube_last_video" item.videoId)) ∧
    ((hadNotifySuccess (check_instagram cfg igPostOk cache web rss).2.2 = false ∧
      (check_instagram cfg igPostOk cache web rss).2.1 = cache) ∨
     (hadNotifySuccess (check_instagram cfg igPostOk cache web rss).2.2 = true ∧
      (check_instagram cfg igPostOk cache web rss).1 = true ∧
      ∃ pid u pay,
        (check_instagram cfg igPostOk cache web rss).2.1
          = cacheSet cache "instagram_last_post" pid ∧
        Ev.post u pay true ∈ (check_instagram cfg igPostOk cache web rss).2.2 ∧
        ∃ em, pay.embeds = [em] ∧
          em.url = "https://www.instagram.com/p/" ++ pid ++ "/")) :=
  ⟨yt_spec cfg env cache, ig_spec cfg igPostOk cache web rss⟩

/-- C2: when the newest fetched item id equals the cached entry, the
checker returns false, leaves the cache unchanged, and performs no
webhook POST (the video checker's only network effect is the initial
search query, the Instagram post pipeline performs nothing at all). -/
theorem claim2_idempotent_run
    (cfg : Config) (env : YTEnv) (cache : Cache) (item : YTSearchItem)
    (rest : List YTSearchItem) (postOk : Bool) (p : IGPost)
    (hkey : truthy env.apiKey = true)
    (hbuild : env.buildResult = Except.ok ())
    (hsearch : env.searchResp = Except.ok (item :: rest))
    (hcache : cacheGet cache "youtube_last_video" = some item.videoId)
    (hsc : p.shortcode ≠ "")
    (hig : cacheGet cache "instagram_last_post" = some p.shortcode) :
    check_youtube cfg env cache = (false, cache, [Ev.get yt_search_call]) ∧
    process_instagram_post cfg postOk cache p = (false, cache, []) := by
  constructor
  · simp [check_youtube, check_youtube_impl, hkey, hbuild, hsearch, hcache]
  · have hsc2 : (p.shortcode == "") = false := by simp [hsc]
    simp [process_instagram_post, hsc2, hig]

/-- Witness for C2: the spec's end-to-end example, cache entry
`"youtube_last_video" = "abc123"` and newest fetched id `"abc123"`. -/
theorem claim2_witness :
    check_youtube cfgW envSame cacheAbc = (false, cacheAbc, [Ev.get yt_search_call]) ∧
    process_instagram_post cfgW true cacheAbc postP1 = (false, cacheAbc, []) :=
  claim2_idempotent_run cfgW envSame cacheAbc itemAbc [] true postP1
    rfl rfl rfl rfl (by decide) rfl

/-- C5: with no API credential the video checker returns false and
issues no network request; with the resolved webhook URL unset the
notifier returns failure and issues no network call. -/
theorem claim5_missing_config
    (cfg : Config) (env : YTEnv) (cache : Cache) (postOk : Bool) (content : String)
    (embed : Option Embed) (log m : Bool)
    (hk : truthy env.apiKey = false)
    (hu : truthy (if log then cfg.discordLogWebhookUrl else cfg.discordWebhookUrl) = false) :
    check_youtube cfg env cache = (false, cache, []) ∧
    send_discord_webhook cfg postOk content embed log m = (false, []) := by
  constructor
  · simp [check_youtube, check_youtube_impl, hk]
  · simp [send_discord_webhook, hu]

/-- Witness for C5 at a concrete unset configuration. -/
theorem claim5_witness :
    check_youtube cfgNone envNoKey cacheAbc = (false, cacheAbc, []) ∧
    send_discord_webhook cfgNone true "hello" none false false = (false, []) :=
  claim5_missing_config cfgNone envNoKey cacheAbc true "hello" none false false rfl rfl

/-- C6: when the primary (JSON endpoint) strategy raises and the
secondary (rendered page) strategy yields a valid item, the checker's
outcome is the shared pipeline's result on the secondary strategy's
item, and the third-party mirror is never fetched. -/
theorem claim6_fallback_order
    (cfg : Config) (postOk : Bool) (cache : Cache) (web : IGWebEnv) (rss : RssEnv)
    (msg : String) (h : HtmlData) (p : IGPost)
    (hjson : web.jsonFetch = Except.error msg)
    (hhtml : web.htmlFetch = Except.ok h)
    (hpost : h.scriptPost = some p)
    (_hvalid : p.shortcode ≠ "") :
    check_instagram cfg postOk cache web rss
      = ((process_instagram_post cfg postOk cache p).1,
         (process_instagram_post cfg postOk cache p).2.1,
         Ev.get ig_json_url :: Ev.get ig_html_url ::
           (process_instagram_post cfg postOk cache p).2.2) ∧
    Ev.get picuki_url ∉ (check_instagram cfg postOk cache web rss).2.2 := by
  have hmain : check_instagram cfg postOk cache web rss
      = ((process_instagram_post cfg postOk cache p).1,
         (process_instagram_post cfg postOk cache p).2.1,
         Ev.get ig_json_url :: Ev.get ig_html_url ::
           (process_instagram_post cfg postOk cache p).2.2) := by
    simp [check_instagram, check_instagram_web, igWebHtmlStep, process_instagram_html,
      hjson, hhtml, hpost, liftResult]
  refine ⟨hmain, ?_⟩
  rw [hmain]
  simpa [picuki_url, ig_json_url, ig_html_url] using
    ppost_no_get cfg postOk cache p picuki_url

/-- Witness for C6: JSON endpoint down, HTML page carrying post
`"zz9"`; picuki is never contacted. -/
theorem claim6_witness :
    check_instagram cfgW true cacheAbc webHtml rssErr
      = ((process_instagram_post cfgW true cacheAbc postNew).1,
         (process_instagram_post cfgW true cacheAbc postNew).2.1,
         Ev.get ig_json_url :: Ev.get ig_html_url ::
           (process_instagram_post cfgW true cacheAbc postNew).2.2) ∧
    Ev.get picuki_url ∉ (check_instagram cfgW true cacheAbc webHtml rssErr).2.2 :=
  claim6_fallback_order cfgW true cacheAbc webHtml rssErr "json down" hScript postNew
    rfl rfl rfl (by decide)

/-- C8: each checker's public entry point converts any exception of
its implementation to `false` (never raising past its boundary), and
the orchestrator always reaches cache persistence and the summary
notification, whose text is composed from the two boolean results. -/
theorem claim8_checker_boundary
    (cfg : Config) (ytEnv : YTEnv) (igPostOk sumPostOk isGithub : Bool)
    (web : IGWebEnv) (rss : RssEnv) (cache : Cache) :
    (∀ e, check_youtube_impl cfg ytEnv cache = Except.error e →
       check_youtube cfg ytEnv cache = (false, cache, [])) ∧
    (run_all_checks cfg ytEnv igPostOk sumPostOk isGithub web rss cache).savedCache
      = some (check_instagram cfg igPostOk
          (check_youtube cfg ytEnv cache).2.1 web rss).2.1 ∧
    (run_all_checks cfg ytEnv igPostOk sumPostOk isGithub web rss cache).summary
      = send_discord_webhook cfg sumPostOk
          (runSummary (check_youtube cfg ytEnv cache).1
            (check_instagram cfg igPostOk
              (check_youtube cfg ytEnv cache).2.1 web rss).1
            isGithub cfg.discordUserId) none true false := by
  refine ⟨?_, rfl, rfl⟩
  intro e he
  simp [check_youtube, he]

/-- Witness for C8: a raising `googleapiclient.discovery.build` is
contained and the run still persists the cache and sends a summary. -/
theorem claim8_witness :
    check_youtube cfgW envBoom cacheAbc = (false, cacheAbc, []) ∧
    (run_all_checks cfgW envBoom true true false webErr rssErr cacheAbc).savedCache
      = some (check_instagram cfgW true
          (check_youtube cfgW envBoom cacheAbc).2.1 webErr rssErr).2.1 ∧
    (run_all_checks cfgW envBoom true true false webErr rssErr cacheAbc).summary
      = send_discord_webhook cfgW true
          (runSummary (check_youtube cfgW envBoom cacheAbc).1
            (check_instagram cfgW true
              (check_youtube cfgW envBoom cacheAbc).2.1 webErr rssErr).1
            false cfgW.discordUserId) none true false := by
  obtain ⟨h1, h2, h3⟩ :=
    claim8_checker_boundary cfgW envBoom true true false webErr rssErr cacheAbc
  exact ⟨h1 "boom" rfl, h2, h3⟩

/-- C9: a missing cache file loads as the empty mapping; a present but
invalid file makes `load_cache` (and hence program startup, before any
checker runs) raise; a valid file loads as its contents. -/
theorem claim9_cache_load
    (raw : String) (c : Cache) (cfg : Config) (ytEnv : YTEnv)
    (igPostOk sumPostOk isGithub : Bool) (web : IGWebEnv) (rss : RssEnv) :
    load_cache CacheFile.absent = Except.ok [] ∧
    load_cache (CacheFile.valid c) = Except.ok c ∧
    (∃ msg, load_cache (CacheFile.invalid raw) = Except.error msg) ∧
    (∃ msg, monitorMain (CacheFile.invalid raw) cfg ytEnv igPostOk sumPostOk isGithub
        web rss = Except.error msg) ∧
    monitorMain CacheFile.absent cfg ytEnv igPostOk sumPostOk isGithub web rss
      = Except.ok (run_all_checks cfg ytEnv igPostOk sumPostOk isGithub web rss []) ∧
    monitorMain (CacheFile.valid c) cfg ytEnv igPostOk sumPostOk isGithub web rss
      = Except.ok (run_all_checks cfg ytEnv igPostOk sumPostOk isGithub web rss c) :=
  ⟨rfl, rfl, ⟨_, rfl⟩, ⟨_, rfl⟩, rfl, rfl⟩

/-- C10: each checker touches at most its own cache key, so every
other key loaded at startup is preserved unchanged into the cache
contents written at the end of the run. -/
theorem claim10_frame
    (cfg : Config) (ytEnv : YTEnv) (igPostOk sumPostOk isGithub : Bool)
    (web : IGWebEnv) (rss : RssEnv) (cache : Cache) (k : String) (c : Cache)
    (h1 : k ≠ "youtube_last_video") (h2 : k ≠ "instagram_last_post")
    (hc : (run_all_checks cfg ytEnv igPostOk sumPostOk isGithub web rss cache).savedCache
        = some c) :
    cacheGet c k = cacheGet cache k := by
  have hc2 : c = (check_instagram cfg igPostOk
      (check_youtube cfg ytEnv cache).2.1 web rss).2.1 := (Option.some.inj hc).symm
  have hy : cacheGet (check_youtube cfg ytEnv cache).2.1 k = cacheGet cache k := by
    rcases yt_spec cfg ytEnv cache with ⟨_, h⟩ | ⟨_, _, item, rest, _, h⟩
    · rw [h]
    · rw [h]
      exact cacheGet_cacheSet_ne cache "youtube_last_video" item.videoId k (Ne.symm h1)
  have hi : cacheGet (check_instagram cfg igPostOk
      (check_youtube cfg ytEnv cache).2.1 web rss).2.1 k
      = cacheGet (check_youtube cfg ytEnv cache).2.1 k := by
    rcases ig_spec cfg igPostOk ((check_youtube cfg ytEnv cache).2.1) web rss with
      ⟨_, h⟩ | ⟨_, _, pid, u, pay, h, _, _⟩
    · rw [h]
    · rw [h]
      exact cacheGet_cacheSet_ne _ "instagram_last_post" pid k (Ne.symm h2)
  rw [hc2, hi, hy]

/-- Witness for C10: a run that announces a new video preserves the
unrelated key `"other_key"`. -/
theorem claim10_witness :
    cacheGet cacheFinalW "other_key" = cacheGet cacheAbc "other_key" :=
  claim10_frame cfgW envNew true true false webErr rssErr cacheAbc "other_key"
    cacheFinalW (by decide) (by decide) rfl

/-- C3 counterexample: a persistent 404 response is NOT surfaced
immediately — `raise_for_status` raises `HTTPError`, a subclass of
`requests.RequestException`, which the retry predicate matches — so
the fetcher makes 3 attempts instead of the claimed single one. -/
theorem claim3_counterexample :
    make_request attempts404 = (Except.error (Exn.httpError 404), 3) ∧ (3 : Nat) ≠ 1 :=
  ⟨rfl, by decide⟩

/-- C3 amended: exceptions outside `RequestException`/`Timeout`
surface immediately without retry; HTTP-status errors (non-2xx, i.e.
4xx/5xx raised by `raise_for_status`) count as `RequestException` and
are retried exactly like connection errors and timeouts, up to 3 total
attempts before the failure is surfaced; a retried attempt that then
succeeds returns normally. -/
theorem claim3_amended_retry_policy (f : Nat → AttemptResult) :
    (∀ m, f 0 = AttemptResult.otherErr m →
       make_request f = (Except.error (Exn.other m), 1)) ∧
    (∀ s, f 0 = AttemptResult.response s → 400 ≤ s → s < 600 →
       f 1 = f 0 → f 2 = f 0 →
       make_request f = (Except.error (Exn.httpError s), 3)) ∧
    (∀ e1 s, classifyAttempt (f 0) = Except.error e1 → retryableExn e1 = true →
       f 1 = AttemptResult.response s → ¬(400 ≤ s ∧ s < 600) →
       make_request f = (Except.ok s, 2)) ∧
    (∀ s, f 0 = AttemptResult.response s → ¬(400 ≤ s ∧ s < 600) →
       make_request f = (Except.ok s, 1)) := by
  refine ⟨?_, ?_, ?_, ?_⟩
  · intro m h
    simp [make_request, classifyAttempt, h, retryableExn]
  · intro s h0 h4 h6 h1 h2
    simp [make_request, classifyAttempt, h0, h1, h2, h4, h6, retryableExn]
  · intro e1 s h0 hr h1 hs
    unfold make_request
    rw [h0]
    simp [hr, classifyAttempt, h1, hs]
  · intro s h0 hs
    simp [make_request, classifyAttempt, h0, hs]

/-- Witness for C3 amended: a non-request exception stops after 1
attempt; a persistent 404 is retried to 3 attempts; a connection
error followed by a 200 succeeds on attempt 2. -/
theorem claim3_witness :
    make_request attemptsOther = (Except.error (Exn.other "value error"), 1) ∧
    make_request attempts404 = (Except.error (Exn.httpError 404), 3) ∧
    make_request attemptsConnThenOk = (Except.ok 200, 2) :=
  ⟨(claim3_amended_retry_policy attemptsOther).1 "value error" rfl,
   (claim3_amended_retry_policy attempts404).2.1 404 rfl (by decide) (by decide) rfl rfl,
   (claim3_amended_retry_policy attemptsConnThenOk).2.2.1 Exn.connectionError 200
     rfl rfl rfl (by decide)⟩

/-- C4 counterexample: the empty caption has length at most 300, yet
the rendered card does not pass it through unmodified — the pipeline
substitutes the default text "New Instagram post". -/
theorem claim4_counterexample :
    ("" : String).length ≤ 300 ∧ extractCaption postNoCap = "" ∧
    (igEmbed postNoCap).description = "New Instagram post" ∧
    (igEmbed postNoCap).description ≠ "" :=
  ⟨by decide, rfl, rfl, by decide⟩

/-- C4 amended: descriptions longer than 200 characters truncate to
200 plus ellipsis and captions longer than 300 truncate to 300 plus
ellipsis; a description at or under 200 and a NONEMPTY caption at or
under 300 pass through unmodified; an absent (empty) caption renders
as the default text "New Instagram post". -/
theorem claim4_amended_truncation (videoId : String) (v : YTVideo) (p : IGPost) :
    (v.description.length > 200 →
       (ytEmbed videoId v).description = v.description.take 200 ++ "...") ∧
    (v.description.length ≤ 200 → (ytEmbed videoId v).description = v.description) ∧
    ((extractCaption p).length > 300 →
       (igEmbed p).description = (extractCaption p).take 300 ++ "...") ∧
    ((extractCaption p).length ≤ 300 → extractCaption p ≠ "" →
       (igEmbed p).description = extractCaption p) ∧
    (extractCaption p = "" → (igEmbed p).description = "New Instagram post") := by
  refine ⟨?_, ?_, ?_, ?_, ?_⟩
  · intro h
    simp [ytEmbed, ytDescription, h]
  · intro h
    have h2 : ¬(v.description.length > 200) := by omega
    simp [ytEmbed, ytDescription, h2]
  · intro h
    simp [igEmbed, igCaptionRender, h]
  · intro h hne
    have h2 : ¬((extractCaption p).length > 300) := by omega
    have h3 : (extractCaption p == "") = false := by simp [hne]
    simp [igEmbed, igCaptionRender, h2, h3]
  · intro h
    simp [igEmbed, igCaptionRender, h]

set_option maxRecDepth 8192 in
/-- Witness for C4 amended at a 201-character description, a short
description, a 301-character caption, a short caption, and an absent
caption. -/
theorem claim4_witness :
    (ytEmbed "v1" vLong).description = longDesc.take 200 ++ "..." ∧
    (ytEmbed "v1" vShort).description = "short" ∧
    (igEmbed postLongCap).description = longCap.take 300 ++ "..." ∧
    (igEmbed postShortCap).description = "hi" ∧
    (igEmbed postNoCap).description = "New Instagram post" :=
  ⟨(claim4_amended_truncation "v1" vLong postNoCap).1 (by decide),
   (claim4_amended_truncation "v1" vShort postNoCap).2.1 (by decide),
   (claim4_amended_truncation "v1" vShort postLongCap).2.2.1 (by decide),
   (claim4_amended_truncation "v1" vShort postShortCap).2.2.2.1 (by decide) (by decide),
   (claim4_amended_truncation "v1" vShort postNoCap).2.2.2.2 rfl⟩

/-- C7 counterexample: the third-party mirror strategy does not share
the pipeline's presentation rules — for the same normalized item
(shortcode "123", no optional fields) its card differs from the
shared pipeline's card: its description is the fixed
"New Instagram post from gatlin" while the pipeline's default is
"New Instagram post". -/
theorem claim7_counterexample :
    rssEmbed "123" none ≠ igEmbed { shortcode := "123" } ∧
    (rssEmbed "123" none).description = "New Instagram post from gatlin" ∧
    (igEmbed { shortcode := "123" }).description = "New Instagram post" :=
  ⟨by decide, rfl, rfl⟩

/-- C7 amended: items extracted by the JSON and rendered-page
strategies are run through the shared compare-cache → build-card →
notify → update-cache pipeline, whose card labels the item "Reel"
when the is-video flag is set else "Post", renders the caption via
the 300-character truncation rule with default text "New Instagram
post", and uses the fixed color and author constants; the third-party
mirror strategy instead runs its own inline pipeline that reuses the
same cache key, color and author constants but builds a fixed card
titled "Instagram Post" with fixed description "New Instagram post
from gatlin" and no reel labelling or caption handling. -/
theorem claim7_amended_pipeline
    (cfg : Config) (postOk : Bool) (cache : Cache) (d : IGJsonData) (h : HtmlData)
    (p : IGPost) (ps : List IGPost) (env : RssEnv) (page : RssPage) (pid sc : String) :
    (d.userPresent = true → d.posts = p :: ps →
       process_instagram_json cfg postOk cache d
         = liftResult (process_instagram_post cfg postOk cache p)) ∧
    (h.scriptPost = some p →
       process_instagram_html cfg postOk cache h
         = liftResult (process_instagram_post cfg postOk cache p)) ∧
    (h.scriptPost = none → h.linkShortcode = some sc →
       process_instagram_html cfg postOk cache h
         = liftResult (process_instagram_post cfg postOk cache { shortcode := sc })) ∧
    ((igEmbed p).color = 14315734 ∧
     (igEmbed p).author = some ("gatlin", "https://www.instagram.com/gatlin/") ∧
     (igEmbed p).title = "Instagram " ++ (if p.isVideo then "Reel" else "Post") ∧
     (igEmbed p).description = igCaptionRender (extractCaption p)) ∧
    ((rssEmbed pid page.imageUrl).color = (igEmbed p).color ∧
     (rssEmbed pid page.imageUrl).author = (igEmbed p).author ∧
     (rssEmbed pid page.imageUrl).title = "Instagram Post" ∧
     (rssEmbed pid page.imageUrl).description = "New Instagram post from gatlin") ∧
    (env.fetch = Except.ok page → page.mediaId = some pid →
       (cacheGet cache "instagram_last_post" == some pid) = false →
       check_instagram_rss cfg postOk cache env
         = (if (send_discord_webhook cfg postOk (rssContent pid)
                 (some (rssEmbed pid page.imageUrl)) false false).1 then
              (some true, cacheSet cache "instagram_last_post" pid,
                Ev.get picuki_url :: (send_discord_webhook cfg postOk (rssContent pid)
                  (some (rssEmbed pid page.imageUrl)) false false).2)
            else
              (none, cache, Ev.get picuki_url :: (send_discord_webhook cfg postOk
                (rssContent pid) (some (rssEmbed pid page.imageUrl)) false false).2))) := by
  refine ⟨?_, ?_, ?_, ⟨rfl, rfl, ?_, rfl⟩, ⟨rfl, rfl, rfl, rfl⟩, ?_⟩
  · intro hu hp
    simp [process_instagram_json, hu, hp]
  · intro hs
    simp [process_instagram_html, hs]
  · intro hs hl
    simp [process_instagram_html, hs, hl]
  · cases hv : p.isVideo <;> simp [igEmbed, hv] <;> rfl
  · intro hf hm hc
    simp [check_instagram_rss, hf, hm, hc]

/-- Witness for C7 amended at concrete strategy outputs and a
concrete mirror run that announces post id "3141". -/
theorem claim7_witness :
    process_instagram_json cfgW true cacheAbc dW
      = liftResult (process_instagram_post cfgW true cacheAbc postNew) ∧
    process_instagram_html cfgW true cacheAbc hScript
      = liftResult (process_instagram_post cfgW true cacheAbc postNew) ∧
    process_instagram_html cfgW true cacheAbc hLink
      = liftResult (process_instagram_post cfgW true cacheAbc { shortcode := "zz9" }) ∧
    (igEmbed postNew).color = 14315734 ∧
    (rssEmbed "3141" rssPage1.imageUrl).description = "New Instagram post from gatlin" ∧
    check_instagram_rss cfgW true cacheAbc rssOk
      = (if (send_discord_webhook cfgW true (rssContent "3141")
              (some (rssEmbed "3141" rssPage1.imageUrl)) false false).1 then
           (some true, cacheSet cacheAbc "instagram_last_post" "3141",
             Ev.get picuki_url :: (send_discord_webhook cfgW true (rssContent "3141")
               (some (rssEmbed "3141" rssPage1.imageUrl)) false false).2)
         else
           (none, cacheAbc, Ev.get picuki_url :: (send_discord_webhook cfgW true
             (rssContent "3141") (some (rssEmbed "3141" rssPage1.imageUrl)) false false).2)) := by
  obtain ⟨h1, h2, _, h4, h5, h6⟩ :=
    claim7_amended_pipeline cfgW true cacheAbc dW hScript postNew [] rssOk rssPage1
      "3141" "zz9"
  obtain ⟨_, _, h3, _, _, _⟩ :=
    claim7_amended_pipeline cfgW true cacheAbc dW hLink postNew [] rssOk rssPage1
      "3141" "zz9"
  exact ⟨h1 rfl rfl, h2 rfl, h3 rfl rfl, h4.1, h5.2.2.2, h6 rfl rfl (by decide)⟩

end Gattycord
